import Mathlib

/-!
Verification development for the server-stats event journaling program
(src/app.py). The Python source is shallowly embedded: the JSONL journal
writer becomes a function on a list of structured records together with an
explicit serializer modelling json.dump, the five discord event handlers
become functions from a gateway environment and a platform event to an
exceptional result, and the event loop becomes a fold over a list of
delivered events.
-/

/-- The designated excluded-author id (SAPPHIRE_ID in src/app.py). -/
def SAPPHIRE_ID : Int := 678344927997853742

/-- The Events StrEnum of src/app.py, with its six string values. -/
inductive Events where
  | message
  | raw_reaction_add
  | reaction_add
  | member_join
  | member_remove
  | invite_create
deriving DecidableEq, Repr

/-- The string value of each Events member (StrEnum values in src/app.py). -/
def Events.value : Events → String
  | .message => "message"
  | .raw_reaction_add => "raw_reaction_add"
  | .reaction_add => "reaction_add"
  | .member_join => "member_join"
  | .member_remove => "member_remove"
  | .invite_create => "invite_create"

/-- Scalar JSON values appearing in the data payloads of src/app.py:
integers (ids, counts) and strings (names, emoji). -/
inductive JsonVal where
  | int (n : Int)
  | str (s : String)
deriving DecidableEq, Repr

/-- A data payload: an insertion-ordered Python dict of string keys to
scalar values, as built literally in each handler of src/app.py. -/
abbrev Payload := List (String × JsonVal)

/-- One journal record as assembled by JsonlDataWriter.log: a timestamp
taken from the wall clock at the call (modelled as microseconds since the
epoch, the resolution of datetime.datetime.now), the event kind, and the
data payload, present exactly when the data argument was Python-truthy. -/
structure LoggedData where
  timestamp : Nat
  event : Events
  data : Option Payload
deriving DecidableEq, Repr

/-- The record JsonlDataWriter.log builds for one call: logged_data gets
keys timestamp and event, and the data key only when the data argument is
truthy (a non-None, non-empty dict), mirroring the `if data:` test. -/
def logged (now : Nat) (event_name : Events) (data : Option Payload) : LoggedData :=
  { timestamp := now
    event := event_name
    data := match data with
            | none => none
            | some d => if d = [] then none else some d }

/-- JsonlDataWriter.log on the journal (the file content as a list of
records): opens the file in append mode and writes exactly one record at
the end; earlier records are untouched. -/
def JsonlDataWriter.log (now : Nat) (event_name : Events) (data : Option Payload)
    (journal : List LoggedData) : List LoggedData :=
  journal ++ [logged now event_name data]

/-- What the journal path refers to on disk: nothing, a directory, or a
regular file holding a list of records (lines). -/
inductive FsNode where
  | absent
  | dir
  | file (records : List LoggedData)
deriving DecidableEq, Repr

/-- JsonlDataWriter.__init__ of src/app.py: raises ValueError when the
path is a directory, touches the path into an empty file when it does not
exist, and otherwise leaves an existing regular file as it is. -/
def JsonlDataWriter.init : FsNode → Except String FsNode
  | .dir => .error "cannot log to %s: is directory"
  | .absent => .ok (.file [])
  | .file records => .ok (.file records)

/-- Hexadecimal digit characters, used for decimal digits (arguments
below ten) and for the \u escapes of json.dump. -/
def hexChar (n : Nat) : Char :=
  if n < 10 then Char.ofNat (48 + n) else Char.ofNat (87 + n)

/-- Digit extraction with explicit fuel (n itself is always enough fuel
for n, keeping the definition structurally recursive and computable by
the kernel). -/
def revDigitsFuel : Nat → Nat → List Char
  | 0, _ => []
  | fuel + 1, n => if n = 0 then [] else hexChar (n % 10) :: revDigitsFuel fuel (n / 10)

/-- The decimal digits of n in reverse order (empty for zero). -/
def natToRevDigits (n : Nat) : List Char :=
  revDigitsFuel n n

/-- Decimal rendering of a natural number. -/
def renderNat (n : Nat) : String :=
  if n = 0 then "0" else ⟨(natToRevDigits n).reverse⟩

/-- Decimal rendering of an integer, as json.dump renders Python ints. -/
def renderInt (n : Int) : String :=
  if n < 0 then "-" ++ renderNat n.natAbs else renderNat n.natAbs

/-- The microsecond part of a timestamp, zero-padded to six digits. -/
def pad6 (n : Nat) : String :=
  ⟨List.replicate (6 - (renderNat n).length) '0'⟩ ++ renderNat n

/-- Rendering of the float timestamp of datetime.now().timestamp():
seconds since the epoch with the microsecond fraction (the model of the
decimal text Python emits for the float; the claims do not depend on
trailing-zero formatting differences). -/
def renderTs (t : Nat) : String :=
  renderNat (t / 1000000) ++ "." ++ pad6 (t % 1000000)

/-- Four-hex-digit rendering for a \u escape. -/
def hex4 (n : Nat) : List Char :=
  [hexChar (n / 4096 % 16), hexChar (n / 256 % 16), hexChar (n / 16 % 16), hexChar (n % 16)]

/-- How json.dump (ensure_ascii default) escapes one character of a JSON
string: the two-character escapes for quote, backslash and the common
control characters, \u escapes for other control and all non-ASCII
characters (with a surrogate pair beyond the basic plane), and printable
ASCII kept as is. -/
def escapeChar (c : Char) : List Char :=
  if c = '"' then ['\\', '"']
  else if c = '\\' then ['\\', '\\']
  else if c = '\n' then ['\\', 'n']
  else if c = '\t' then ['\\', 't']
  else if c = '\r' then ['\\', 'r']
  else if c.toNat = 8 then ['\\', 'b']
  else if c.toNat = 12 then ['\\', 'f']
  else if c.toNat < 32 then '\\' :: 'u' :: hex4 c.toNat
  else if c.toNat < 127 then [c]
  else if c.toNat < 65536 then '\\' :: 'u' :: hex4 c.toNat
  else ('\\' :: 'u' :: hex4 (55296 + (c.toNat - 65536) / 1024))
       ++ ('\\' :: 'u' :: hex4 (56320 + (c.toNat - 65536) % 1024))

/-- Escape every character of a string body. -/
def escapeList : List Char → List Char
  | [] => []
  | c :: cs => escapeChar c ++ escapeList cs

/-- A JSON string literal: quoted, body escaped as json.dump does. -/
def renderJsonString (s : String) : String :=
  "\"" ++ ⟨escapeList s.data⟩ ++ "\""

/-- Rendering of one scalar value. -/
def JsonVal.render : JsonVal → String
  | .int n => renderInt n
  | .str s => renderJsonString s

/-- One key-value pair with the default json.dump key separator. -/
def renderPair (p : String × JsonVal) : String :=
  renderJsonString p.1 ++ ": " ++ p.2.render

/-- The pairs of an object joined by the default item separator. -/
def renderPairs : Payload → String
  | [] => ""
  | [p] => renderPair p
  | p :: rest => renderPair p ++ ", " ++ renderPairs rest

/-- A JSON object in dict insertion order. -/
def renderObj (d : Payload) : String :=
  "\x7b" ++ renderPairs d ++ "\x7d"

/-- The single line json.dump writes for one record: keys timestamp,
event and (when present) data, in insertion order, with the default
separators. -/
def serializeLine (r : LoggedData) : String :=
  "\x7b\"timestamp\": " ++ renderTs r.timestamp
    ++ ", \"event\": " ++ renderJsonString r.event.value
    ++ (match r.data with
        | none => ""
        | some d => ", \"data\": " ++ renderObj d)
    ++ "\x7d"

/-- The lines of the journal file. -/
def fileLines (journal : List LoggedData) : List String :=
  journal.map serializeLine

/-- The byte content of the journal file: each record serialized and
newline-terminated, in order. -/
def fileContent : List LoggedData → String
  | [] => ""
  | r :: rs => serializeLine r ++ "\n" ++ fileContent rs

/-- A Python exception escaping a handler: the RuntimeError raised by
__get_current_member_count, or the AttributeError from an attribute
access on None (a failed cache lookup). -/
inductive PyError where
  | runtimeError (msg : String)
  | attributeError (msg : String)
deriving DecidableEq, Repr

/-- The monitored guild as the gateway client caches it: member_count is
Optional and may also be zero when not populated. -/
structure Guild where
  member_count : Option Nat
deriving DecidableEq, Repr

/-- A cached channel, with the two attributes the handlers read. -/
structure Channel where
  id : Int
  name : String
deriving DecidableEq, Repr

/-- The gateway client state an event handler consults: the result of
self.get_guild(self.guild_id) and the channel cache self.get_channel. -/
structure GatewayEnv where
  get_guild : Option Guild
  get_channel : Int → Option Channel

/-- A discord.Message, restricted to the attributes src/app.py reads,
plus the platform-assigned creation time, which the code never reads
(records carry observation time, not occurrence time). -/
structure Message where
  author_id : Int
  author_name : String
  channel_id : Int
  channel_name : String
  created_at : Nat
deriving DecidableEq, Repr

/-- A discord.RawReactionActionEvent, restricted to what the handler
reads (payload.channel_id, payload.emoji.name, payload.member). -/
structure RawReactionActionEvent where
  channel_id : Int
  emoji_name : String
  member_name : String
  member_id : Int
deriving DecidableEq, Repr

/-- A discord.Member, restricted to the id the join handler reads. -/
structure Member where
  id : Int
deriving DecidableEq, Repr

/-- A discord.RawMemberRemoveEvent, restricted to payload.user.id. -/
structure RawMemberRemoveEvent where
  user_id : Int
deriving DecidableEq, Repr

/-- A discord.Invite, restricted to the attributes the handler reads. -/
structure Invite where
  id : String
  inviter_id : Int
  inviter_name : String
deriving DecidableEq, Repr

/-- StatCollectorClient.__get_current_member_count: reads
self.get_guild(self.guild_id).member_count; an absent guild makes the
attribute access raise, a falsy count (None or zero) raises the
RuntimeError, and otherwise the count is returned. -/
def getCurrentMemberCount (env : GatewayEnv) : Except PyError Nat :=
  match env.get_guild with
  | none => .error (.attributeError "NoneType object has no attribute member_count")
  | some guild =>
    match guild.member_count with
    | none => .error (.runtimeError "member count is not available!")
    | some 0 => .error (.runtimeError "member count is not available!")
    | some (n + 1) => .ok (n + 1)

/-- StatCollectorClient.on_message: returns without logging when the
author is SAPPHIRE_ID; otherwise builds the data dict (the member-count
lookup may raise) and logs it. The result is the record to log, none
when the event is suppressed. -/
def on_message (env : GatewayEnv) (message : Message) :
    Except PyError (Option (Events × Payload)) :=
  if message.author_id = SAPPHIRE_ID then .ok none
  else
    match getCurrentMemberCount env with
    | .error e => .error e
    | .ok count =>
      .ok (some (Events.message,
        [("author_id", .int message.author_id),
         ("author_name", .str message.author_name),
         ("channel_id", .int message.channel_id),
         ("channel_name", .str message.channel_name),
         ("current_member_count", .int count)]))

/-- StatCollectorClient.on_raw_reaction_add: resolves the channel from
the cache (an absent channel makes channel.id raise), then builds the
data dict and logs it. -/
def on_raw_reaction_add (env : GatewayEnv) (payload : RawReactionActionEvent) :
    Except PyError (Option (Events × Payload)) :=
  match env.get_channel payload.channel_id with
  | none => .error (.attributeError "NoneType object has no attribute id")
  | some channel =>
    match getCurrentMemberCount env with
    | .error e => .error e
    | .ok count =>
      .ok (some (Events.reaction_add,
        [("channel_id", .int channel.id),
         ("channel_name", .str channel.name),
         ("emoji", .str payload.emoji_name),
         ("member_name", .str payload.member_name),
         ("member_id", .int payload.member_id),
         ("current_member_count", .int count)]))

/-- StatCollectorClient.on_member_join. -/
def on_member_join (env : GatewayEnv) (member : Member) :
    Except PyError (Option (Events × Payload)) :=
  match getCurrentMemberCount env with
  | .error e => .error e
  | .ok count =>
    .ok (some (Events.member_join,
      [("member_id", .int member.id),
       ("current_member_count", .int count)]))

/-- StatCollectorClient.on_raw_member_remove. -/
def on_raw_member_remove (env : GatewayEnv) (payload : RawMemberRemoveEvent) :
    Except PyError (Option (Events × Payload)) :=
  match getCurrentMemberCount env with
  | .error e => .error e
  | .ok count =>
    .ok (some (Events.member_remove,
      [("member_id", .int payload.user_id),
       ("current_member_count", .int count)]))

/-- StatCollectorClient.on_invite_create. -/
def on_invite_create (env : GatewayEnv) (invite : Invite) :
    Except PyError (Option (Events × Payload)) :=
  match getCurrentMemberCount env with
  | .error e => .error e
  | .ok count =>
    .ok (some (Events.invite_create,
      [("invite_id", .str invite.id),
       ("inviter_id", .int invite.inviter_id),
       ("inviter_name", .str invite.inviter_name),
       ("current_member_count", .int count)]))

/-- One inbound platform event, tagged by the handler it is routed to. -/
inductive PlatformEvent where
  | message (m : Message)
  | raw_reaction_add (p : RawReactionActionEvent)
  | member_join (m : Member)
  | raw_member_remove (p : RawMemberRemoveEvent)
  | invite_create (i : Invite)
deriving DecidableEq, Repr

/-- Routing of an inbound event to the matching handler of
StatCollectorClient. -/
def handleEvent (env : GatewayEnv) : PlatformEvent → Except PyError (Option (Events × Payload))
  | .message m => on_message env m
  | .raw_reaction_add p => on_raw_reaction_add env p
  | .member_join m => on_member_join env m
  | .raw_member_remove p => on_raw_member_remove env p
  | .invite_create i => on_invite_create env i

/-- Delivery of one event to the client at clock reading now. The
handler body is embedded from src/app.py; the surrounding behaviour is
modelled from the spec: the dispatch loop of the external gateway client
runs each handler to completion, and an error escaping a handler is
reported to the observability channel and dropped, leaving the journal
untouched and the subscription alive. -/
def dispatchOne (env : GatewayEnv) (now : Nat) (e : PlatformEvent)
    (journal : List LoggedData) : List LoggedData :=
  match handleEvent env e with
  | .error _ => journal
  | .ok none => journal
  | .ok (some (kind, data)) => JsonlDataWriter.log now kind (some data) journal

/-- The event stream: events delivered one at a time, each with the
gateway state visible to its handler and the wall-clock reading of its
log call. -/
def runEvents : List (GatewayEnv × PlatformEvent × Nat) → List LoggedData → List LoggedData
  | [], journal => journal
  | (env, e, now) :: rest, journal => runEvents rest (dispatchOne env now e journal)

/-- The records one delivered event contributes to the journal: none on
suppression or error, exactly one otherwise. -/
def emitted (env : GatewayEnv) (now : Nat) (e : PlatformEvent) : List LoggedData :=
  match handleEvent env e with
  | .error _ => []
  | .ok none => []
  | .ok (some (kind, data)) => [logged now kind (some data)]

/-- The five event kinds the handlers emit. -/
def emittedKinds : List Events :=
  [.message, .reaction_add, .member_join, .member_remove, .invite_create]

/-- The per-kind data field sets of the table in section 6 of the spec,
written from the spec for comparison with the embedded handlers. The
raw_reaction_add member of the StrEnum has no row (no handler logs under
that name). -/
def specDataFields : Events → List String
  | .message => ["author_id", "author_name", "channel_id", "channel_name", "current_member_count"]
  | .reaction_add => ["channel_id", "channel_name", "emoji", "member_name", "member_id", "current_member_count"]
  | .member_join => ["member_id", "current_member_count"]
  | .member_remove => ["member_id", "current_member_count"]
  | .invite_create => ["invite_id", "inviter_id", "inviter_name", "current_member_count"]
  | .raw_reaction_add => []

/-- Repeated JsonlDataWriter.log calls, one per element of calls, in
order. -/
def appendAll : List (Nat × Events × Option Payload) → List LoggedData → List LoggedData
  | [], journal => journal
  | (t, k, d) :: rest, journal => appendAll rest (JsonlDataWriter.log t k d journal)

/-- A string free of the newline character (a one-line serialization). -/
abbrev NoNL (s : String) : Prop := ∀ c ∈ s.data, c ≠ '\n'

theorem data_append (a b : String) : (a ++ b).data = a.data ++ b.data := by
  cases a; cases b; rfl

theorem noNL_append {a b : String} (ha : NoNL a) (hb : NoNL b) : NoNL (a ++ b) := by
  intro c hc
  rw [data_append] at hc
  rcases List.mem_append.mp hc with h | h
  · exact ha c h
  · exact hb c h

theorem hexChar_noNL : ∀ n < 16, hexChar n ≠ '\n' := by decide

theorem hex4_noNL (n : Nat) : ∀ x ∈ hex4 n, x ≠ '\n' := by
  intro x hx
  simp only [hex4, List.mem_cons, List.not_mem_nil, or_false] at hx
  rcases hx with h | h | h | h <;> subst h <;>
    exact hexChar_noNL _ (Nat.mod_lt _ (by decide))

theorem escapeChar_noNL (c : Char) : ∀ x ∈ escapeChar c, x ≠ '\n' := by
  intro x hx
  unfold escapeChar at hx
  by_cases h1 : c = '"'
  · rw [if_pos h1] at hx
    simp only [List.mem_cons, List.not_mem_nil, or_false] at hx
    rcases hx with rfl | rfl <;> decide
  rw [if_neg h1] at hx
  by_cases h2 : c = '\\'
  · rw [if_pos h2] at hx
    simp only [List.mem_cons, List.not_mem_nil, or_false] at hx
    rcases hx with rfl | rfl <;> decide
  rw [if_neg h2] at hx
  by_cases h3 : c = '\n'
  · rw [if_pos h3] at hx
    simp only [List.mem_cons, List.not_mem_nil, or_false] at hx
    rcases hx with rfl | rfl <;> decide
  rw [if_neg h3] at hx
  by_cases h4 : c = '\t'
  · rw [if_pos h4] at hx
    simp only [List.mem_cons, List.not_mem_nil, or_false] at hx
    rcases hx with rfl | rfl <;> decide
  rw [if_neg h4] at hx
  by_cases h5 : c = '\r'
  · rw [if_pos h5] at hx
    simp only [List.mem_cons, List.not_mem_nil, or_false] at hx
    rcases hx with rfl | rfl <;> decide
  rw [if_neg h5] at hx
  by_cases h6 : c.toNat = 8
  · rw [if_pos h6] at hx
    simp only [List.mem_cons, List.not_mem_nil, or_false] at hx
    rcases hx with rfl | rfl <;> decide
  rw [if_neg h6] at hx
  by_cases h7 : c.toNat = 12
  · rw [if_pos h7] at hx
    simp only [List.mem_cons, List.not_mem_nil, or_false] at hx
    rcases hx with rfl | rfl <;> decide
  rw [if_neg h7] at hx
  by_cases h8 : c.toNat < 32
  · rw [if_pos h8] at hx
    simp only [List.mem_cons] at hx
    rcases hx with rfl | rfl | h
    · decide
    · decide
    · exact hex4_noNL _ _ h
  rw [if_neg h8] at hx
  by_cases h9 : c.toNat < 127
  · rw [if_pos h9] at hx
    simp only [List.mem_cons, List.not_mem_nil, or_false] at hx
    subst hx
    exact h3
  rw [if_neg h9] at hx
  by_cases h10 : c.toNat < 65536
  · rw [if_pos h10] at hx
    simp only [List.mem_cons] at hx
    rcases hx with rfl | rfl | h
    · decide
    · decide
    · exact hex4_noNL _ _ h
  rw [if_neg h10] at hx
  rcases List.mem_append.mp hx with h | h <;>
    · simp only [List.mem_cons] at h
      rcases h with rfl | rfl | h
      · decide
      · decide
      · exact hex4_noNL _ _ h

theorem escapeList_noNL (l : List Char) : ∀ x ∈ escapeList l, x ≠ '\n' := by
  induction l with
  | nil => intro x hx; cases hx
  | cons c cs ih =>
    intro x hx
    rcases List.mem_append.mp hx with h | h
    · exact escapeChar_noNL c x h
    · exact ih x h

theorem noNL_renderJsonString (s : String) : NoNL (renderJsonString s) := by
  intro c hc
  unfold renderJsonString at hc
  rw [data_append, data_append] at hc
  rcases List.mem_append.mp hc with h | h
  · rcases List.mem_append.mp h with h2 | h2
    · simp only [String.data] at h2
      simp at h2
      subst h2; decide
    · exact escapeList_noNL _ c h2
  · simp only [String.data] at h
    simp at h
    subst h; decide

theorem revDigitsFuel_noNL (fuel : Nat) : ∀ n, ∀ x ∈ revDigitsFuel fuel n, x ≠ '\n' := by
  induction fuel with
  | zero => intro n x hx; cases hx
  | succ f ih =>
    intro n x hx
    unfold revDigitsFuel at hx
    by_cases h : n = 0
    · rw [if_pos h] at hx; cases hx
    · rw [if_neg h] at hx
      rcases List.mem_cons.mp hx with rfl | h2
      · exact hexChar_noNL _ (Nat.lt_trans (Nat.mod_lt _ (by decide)) (by decide))
      · exact ih _ x h2

theorem noNL_renderNat (n : Nat) : NoNL (renderNat n) := by
  intro c hc
  unfold renderNat at hc
  by_cases h : n = 0
  · rw [if_pos h] at hc
    simp at hc
    subst hc; decide
  · rw [if_neg h] at hc
    simp only [String.data] at hc
    rw [List.mem_reverse] at hc
    exact revDigitsFuel_noNL _ _ c hc

theorem noNL_pad6 (n : Nat) : NoNL (pad6 n) := by
  unfold pad6
  apply noNL_append
  · intro c hc
    simp only [String.data] at hc
    rw [List.eq_of_mem_replicate hc]
    decide
  · exact noNL_renderNat n

theorem noNL_renderTs (t : Nat) : NoNL (renderTs t) := by
  unfold renderTs
  apply noNL_append
  apply noNL_append
  · exact noNL_renderNat _
  · intro c hc; simp at hc; subst hc; decide
  · exact noNL_pad6 _

theorem noNL_renderInt (n : Int) : NoNL (renderInt n) := by
  unfold renderInt
  by_cases h : n < 0
  · rw [if_pos h]
    apply noNL_append
    · intro c hc; simp at hc; subst hc; decide
    · exact noNL_renderNat _
  · rw [if_neg h]
    exact noNL_renderNat _

theorem noNL_render (v : JsonVal) : NoNL v.render := by
  cases v with
  | int n => exact noNL_renderInt n
  | str s => exact noNL_renderJsonString s

theorem noNL_renderPair (p : String × JsonVal) : NoNL (renderPair p) := by
  unfold renderPair
  apply noNL_append
  apply noNL_append
  · exact noNL_renderJsonString _
  · intro c hc; simp at hc; rcases hc with rfl | rfl <;> decide
  · exact noNL_render _

theorem noNL_renderPairs (d : Payload) : NoNL (renderPairs d) := by
  induction d with
  | nil => intro c hc; cases hc
  | cons p rest ih =>
    cases rest with
    | nil => exact noNL_renderPair p
    | cons q qs =>
      unfold renderPairs
      apply noNL_append
      apply noNL_append
      · exact noNL_renderPair p
      · intro c hc; simp at hc; rcases hc with rfl | rfl <;> decide
      · exact ih

theorem noNL_renderObj (d : Payload) : NoNL (renderObj d) := by
  unfold renderObj
  apply noNL_append
  apply noNL_append
  · intro c hc; simp at hc; subst hc; decide
  · exact noNL_renderPairs d
  · intro c hc; simp at hc; subst hc; decide

theorem noNL_value (e : Events) : NoNL e.value := by
  cases e <;> decide

theorem noNL_serializeLine (r : LoggedData) : NoNL (serializeLine r) := by
  unfold serializeLine
  apply noNL_append
  · apply noNL_append
    · apply noNL_append
      · apply noNL_append
        · apply noNL_append
          · decide
          · exact noNL_renderTs _
        · decide
      · exact noNL_renderJsonString _
    · cases hr : r.data with
      | none => decide
      | some d =>
        show NoNL (", \"data\": " ++ renderObj d)
        apply noNL_append
        · decide
        · exact noNL_renderObj d
  · decide

theorem getCurrentMemberCount_pos (env : GatewayEnv) (c : Nat)
    (h : getCurrentMemberCount env = .ok c) : 0 < c := by
  unfold getCurrentMemberCount at h
  split at h
  · cases h
  · split at h
    · cases h
    · cases h
    · injection h with h2
      omega

theorem handleEvent_ok (env : GatewayEnv) (e : PlatformEvent) (k : Events) (d : Payload)
    (h : handleEvent env e = .ok (some (k, d))) :
    ∃ c, getCurrentMemberCount env = .ok c ∧ 0 < c ∧
      d.map Prod.fst = specDataFields k ∧
      k ∈ emittedKinds ∧ d ≠ [] ∧
      ∀ v, ("current_member_count", JsonVal.int v) ∈ d → v = (c : Int) := by
  cases e with
  | message m =>
    replace h : on_message env m = .ok (some (k, d)) := h
    unfold on_message at h
    split at h
    · simp at h
    · split at h
      · simp at h
      · next c hc =>
        simp only [Except.ok.injEq, Option.some.injEq, Prod.mk.injEq] at h
        obtain ⟨hk, hd⟩ := h
        subst hk; subst hd
        refine ⟨c, hc, getCurrentMemberCount_pos env c hc, rfl, by decide, by simp, ?_⟩
        intro v hv
        simp at hv
        exact hv
  | raw_reaction_add p =>
    replace h : on_raw_reaction_add env p = .ok (some (k, d)) := h
    unfold on_raw_reaction_add at h
    split at h
    · simp at h
    · split at h
      · simp at h
      · next c hc =>
        simp only [Except.ok.injEq, Option.some.injEq, Prod.mk.injEq] at h
        obtain ⟨hk, hd⟩ := h
        subst hk; subst hd
        refine ⟨c, hc, getCurrentMemberCount_pos env c hc, rfl, by decide, by simp, ?_⟩
        intro v hv
        simp at hv
        exact hv
  | member_join m =>
    replace h : on_member_join env m = .ok (some (k, d)) := h
    unfold on_member_join at h
    split at h
    · simp at h
    · next c hc =>
      simp only [Except.ok.injEq, Option.some.injEq, Prod.mk.injEq] at h
      obtain ⟨hk, hd⟩ := h
      subst hk; subst hd
      refine ⟨c, hc, getCurrentMemberCount_pos env c hc, rfl, by decide, by simp, ?_⟩
      intro v hv
      simp at hv
      exact hv
  | raw_member_remove p =>
    replace h : on_raw_member_remove env p = .ok (some (k, d)) := h
    unfold on_raw_member_remove at h
    split at h
    · simp at h
    · next c hc =>
      simp only [Except.ok.injEq, Option.some.injEq, Prod.mk.injEq] at h
      obtain ⟨hk, hd⟩ := h
      subst hk; subst hd
      refine ⟨c, hc, getCurrentMemberCount_pos env c hc, rfl, by decide, by simp, ?_⟩
      intro v hv
      simp at hv
      exact hv
  | invite_create i =>
    replace h : on_invite_create env i = .ok (some (k, d)) := h
    unfold on_invite_create at h
    split at h
    · simp at h
    · next c hc =>
      simp only [Except.ok.injEq, Option.some.injEq, Prod.mk.injEq] at h
      obtain ⟨hk, hd⟩ := h
      subst hk; subst hd
      refine ⟨c, hc, getCurrentMemberCount_pos env c hc, rfl, by decide, by simp, ?_⟩
      intro v hv
      simp at hv
      exact hv

theorem dispatchOne_eq (env : GatewayEnv) (now : Nat) (e : PlatformEvent)
    (j : List LoggedData) : dispatchOne env now e j = j ++ emitted env now e := by
  unfold dispatchOne emitted JsonlDataWriter.log
  cases h : handleEvent env e with
  | error err => simp
  | ok o =>
    cases o with
    | none => simp
    | some kd => obtain ⟨k, dd⟩ := kd; rfl

theorem runEvents_eq (evs : List (GatewayEnv × PlatformEvent × Nat)) (j : List LoggedData) :
    runEvents evs j = j ++ (evs.map (fun t => emitted t.1 t.2.2 t.2.1)).flatten := by
  induction evs generalizing j with
  | nil => simp [runEvents]
  | cons hd tl ih =>
    obtain ⟨env, e, now⟩ := hd
    show runEvents tl (dispatchOne env now e j) = _
    rw [ih, dispatchOne_eq]
    simp [List.append_assoc]

theorem emitted_timestamps (env : GatewayEnv) (now : Nat) (e : PlatformEvent) :
    (emitted env now e).map (fun r => r.timestamp) = [] ∨
    (emitted env now e).map (fun r => r.timestamp) = [now] := by
  unfold emitted
  cases h : handleEvent env e with
  | error err => left; rfl
  | ok o =>
    cases o with
    | none => left; rfl
    | some kd => right; obtain ⟨k, dd⟩ := kd; rfl

theorem journal_ts_sublist (evs : List (GatewayEnv × PlatformEvent × Nat)) :
    ((evs.map (fun t => emitted t.1 t.2.2 t.2.1)).flatten.map (fun r => r.timestamp)).Sublist
      (evs.map (fun t => t.2.2)) := by
  induction evs with
  | nil => simp
  | cons hd tl ih =>
    simp only [List.map_cons, List.flatten_cons, List.map_append]
    rcases emitted_timestamps hd.1 hd.2.2 hd.2.1 with h | h
    · rw [h]
      simp only [List.nil_append]
      exact List.Sublist.cons _ ih
    · rw [h]
      exact List.Sublist.cons₂ _ ih

theorem emitted_kind (env : GatewayEnv) (now : Nat) (e : PlatformEvent) :
    ∀ r ∈ emitted env now e, r.event ∈ emittedKinds := by
  intro r hr
  unfold emitted at hr
  cases h : handleEvent env e with
  | error err => rw [h] at hr; cases hr
  | ok o =>
    rw [h] at hr
    cases o with
    | none => cases hr
    | some kd =>
      obtain ⟨k, dd⟩ := kd
      simp only [List.mem_singleton] at hr
      subst hr
      obtain ⟨c, _, _, _, hk, _, _⟩ := handleEvent_ok env e k dd h
      exact hk

theorem emitted_count_pos (env : GatewayEnv) (now : Nat) (e : PlatformEvent) :
    ∀ r ∈ emitted env now e, ∀ d, r.data = some d →
      ∀ v, ("current_member_count", JsonVal.int v) ∈ d → 0 < v := by
  intro r hr d hd v hv
  unfold emitted at hr
  cases h : handleEvent env e with
  | error err => rw [h] at hr; cases hr
  | ok o =>
    rw [h] at hr
    cases o with
    | none => cases hr
    | some kd =>
      obtain ⟨k, dd⟩ := kd
      simp only [List.mem_singleton] at hr
      subst hr
      obtain ⟨c, _, hcpos, _, _, hne, hval⟩ := handleEvent_ok env e k dd h
      have hdd : d = dd := by
        simp only [logged, if_neg hne] at hd
        exact (Option.some.inj hd).symm
      subst hdd
      have hvc := hval v hv
      subst hvc
      exact_mod_cast hcpos

theorem appendAll_eq (calls : List (Nat × Events × Option Payload)) (j : List LoggedData) :
    appendAll calls j = j ++ calls.map (fun c => logged c.1 c.2.1 c.2.2) := by
  induction calls generalizing j with
  | nil => simp [appendAll]
  | cons hd tl ih =>
    obtain ⟨t, k, d⟩ := hd
    show appendAll tl (JsonlDataWriter.log t k d j) = _
    rw [ih]
    simp [JsonlDataWriter.log, List.append_assoc]

theorem fileContent_append (j : List LoggedData) (r : LoggedData) :
    fileContent (j ++ [r]) = fileContent j ++ (serializeLine r ++ "\n") := by
  induction j with
  | nil =>
    show serializeLine r ++ "\n" ++ fileContent [] = "" ++ (serializeLine r ++ "\n")
    rw [String.empty_append]
    show serializeLine r ++ "\n" ++ "" = _
    rw [String.append_empty]
  | cons a as ih =>
    show serializeLine a ++ "\n" ++ fileContent (as ++ [r]) = _
    rw [ih]
    show _ = serializeLine a ++ "\n" ++ fileContent as ++ (serializeLine r ++ "\n")
    simp [String.append_assoc]

/-- C3: for every sequence of N append calls, the journal afterwards holds
exactly N lines, one per call, in call order; the serialized lines are the
well-formed one-line records of the calls, and everything written before a
call (the initial journal and the lines of earlier calls) survives every
later call unmodified as a prefix. -/
theorem journal_append_only (calls : List (Nat × Events × Option Payload))
    (j0 : List LoggedData) :
    appendAll calls j0 = j0 ++ calls.map (fun c => logged c.1 c.2.1 c.2.2) ∧
    (appendAll calls []).length = calls.length ∧
    (∀ extra, (appendAll (calls ++ extra) j0).take (appendAll calls j0).length
        = appendAll calls j0) ∧
    fileLines (appendAll calls []) =
      calls.map (fun c => serializeLine (logged c.1 c.2.1 c.2.2)) ∧
    ∀ line ∈ fileLines (appendAll calls j0), (∃ r, line = serializeLine r) ∧ NoNL line := by
  refine ⟨appendAll_eq calls j0, ?_, ?_, ?_, ?_⟩
  · rw [appendAll_eq]
    simp
  · intro extra
    rw [appendAll_eq, appendAll_eq, List.map_append, ← List.append_assoc]
    exact List.take_left _ _
  · rw [appendAll_eq]
    simp [fileLines]
  · intro line hline
    rcases List.mem_map.mp hline with ⟨r, _, rfl⟩
    exact ⟨⟨r, rfl⟩, noNL_serializeLine r⟩

/-- C4: each append call assigns the wall-clock reading of the call itself
as the record timestamp (the operation takes no timestamp from the source
event), appends exactly one record serialized as one newline-terminated
line with keys timestamp, event, data in that order, the serialized line
contains no embedded newline, and when no payload is supplied the data
key is absent from the record and its serialization (not set to null). -/
theorem log_single_line_shape (now : Nat) (k : Events) (d : Option Payload)
    (j : List LoggedData) :
    JsonlDataWriter.log now k d j = j ++ [logged now k d] ∧
    (logged now k d).timestamp = now ∧
    (logged now k none).data = none ∧
    serializeLine (logged now k none)
      = "\x7b\"timestamp\": " ++ renderTs now ++ ", \"event\": "
          ++ renderJsonString k.value ++ "\x7d" ∧
    renderJsonString k.value = "\"" ++ k.value ++ "\"" ∧
    NoNL (serializeLine (logged now k d)) ∧
    fileContent (JsonlDataWriter.log now k d j)
      = fileContent j ++ (serializeLine (logged now k d) ++ "\n") := by
  refine ⟨rfl, rfl, rfl, ?_, ?_, noNL_serializeLine _, ?_⟩
  · show "\x7b\"timestamp\": " ++ renderTs now ++ ", \"event\": "
        ++ renderJsonString k.value ++ "" ++ "\x7d" = _
    rw [String.append_empty]
  · cases k <;> decide
  · exact fileContent_append j (logged now k d)

/-- C5: constructing the writer on an existing directory raises the
configuration error (the literal ValueError message of src/app.py) and
writes nothing; on a missing path it creates an empty file; on an
existing regular file it succeeds leaving the file as found; and a
directory is the only rejected target. -/
theorem init_directory_rejection :
    JsonlDataWriter.init .dir = .error "cannot log to %s: is directory" ∧
    JsonlDataWriter.init .absent = .ok (.file []) ∧
    (∀ rs, JsonlDataWriter.init (.file rs) = .ok (.file rs)) ∧
    ∀ fs, (∃ msg, JsonlDataWriter.init fs = .error msg) ↔ fs = .dir := by
  refine ⟨rfl, rfl, fun rs => rfl, ?_⟩
  intro fs
  cases fs <;> simp [JsonlDataWriter.init]

/-- C6: constructing the writer over a file already holding M records and
appending one record yields M+1 lines whose first M are byte-identical to
the pre-existing ones. -/
theorem idempotent_construction (rs : List LoggedData) (t : Nat) (k : Events)
    (d : Option Payload) :
    JsonlDataWriter.init (.file rs) = .ok (.file rs) ∧
    (JsonlDataWriter.log t k d rs).length = rs.length + 1 ∧
    (JsonlDataWriter.log t k d rs).take rs.length = rs ∧
    (fileLines (JsonlDataWriter.log t k d rs)).take rs.length = fileLines rs := by
  refine ⟨rfl, ?_, ?_, ?_⟩
  · simp [JsonlDataWriter.log]
  · exact List.take_left _ _
  · show (fileLines (rs ++ [logged t k d])).take rs.length = _
    unfold fileLines
    rw [List.map_append]
    have hlen : (rs.map serializeLine).length = rs.length := List.length_map _ _
    rw [← hlen]
    exact List.take_left _ _

/-- C1: a delivered event whose normalization fails with a propagated
error (here event i, whose handler raises) leaves the journal untouched
and the stream alive: the next event is processed as usual and, when not
suppressed, appends exactly one record whose data fields follow the
section 6 table, after which the remaining stream continues. The
per-event catch at the dispatch boundary lives in the external gateway
client and is modelled from the spec; the handler bodies are embedded
from src/app.py. -/
theorem dispatcher_error_isolation
    (envf env2 : GatewayEnv) (ef e2 : PlatformEvent) (tf t2 : Nat) (err : PyError)
    (k : Events) (d : Payload) (post : List (GatewayEnv × PlatformEvent × Nat))
    (j : List LoggedData)
    (hf : handleEvent envf ef = .error err)
    (h2 : handleEvent env2 e2 = .ok (some (k, d))) :
    runEvents ((envf, ef, tf) :: (env2, e2, t2) :: post) j
      = runEvents post (j ++ [logged t2 k (some d)]) ∧
    d.map Prod.fst = specDataFields k := by
  have e1 : dispatchOne envf tf ef j = j := by
    unfold dispatchOne
    rw [hf]
  have e2' : dispatchOne env2 t2 e2 j = j ++ [logged t2 k (some d)] := by
    unfold dispatchOne
    rw [h2]
    rfl
  constructor
  · show runEvents post (dispatchOne env2 t2 e2 (dispatchOne envf tf ef j)) = _
    rw [e1, e2']
  · obtain ⟨c, _, _, hfields, _, _, _⟩ := handleEvent_ok env2 e2 k d h2
    exact hfields

theorem dispatcher_error_isolation_witness :
    handleEvent ⟨some ⟨none⟩, fun _ => none⟩ (.member_join ⟨5⟩)
      = .error (.runtimeError "member count is not available!") ∧
    runEvents
      [(⟨some ⟨none⟩, fun _ => none⟩, .member_join ⟨5⟩, 10),
       (⟨some ⟨some 100⟩, fun _ => none⟩, .message ⟨42, "alice", 7, "general", 3⟩, 20)] []
      = [logged 20 .message (some
          [("author_id", .int 42), ("author_name", .str "alice"),
           ("channel_id", .int 7), ("channel_name", .str "general"),
           ("current_member_count", .int 100)])] := by
  refine ⟨rfl, ?_⟩
  have h := dispatcher_error_isolation
      ⟨some ⟨none⟩, fun _ => none⟩ ⟨some ⟨some 100⟩, fun _ => none⟩
      (.member_join ⟨5⟩) (.message ⟨42, "alice", 7, "general", 3⟩) 10 20
      (.runtimeError "member count is not available!") .message
      [("author_id", .int 42), ("author_name", .str "alice"),
       ("channel_id", .int 7), ("channel_name", .str "general"),
       ("current_member_count", .int 100)] [] [] rfl rfl
  exact h.1

/-- C2: every non-suppressed event yields a record whose data object has
exactly the per-kind field set of the section 6 table, in the order the
handler inserts the keys, and the data object survives into the appended
journal record (it is nonempty, so the truthiness test keeps it). -/
theorem record_schema_fidelity (env : GatewayEnv) (e : PlatformEvent) (k : Events)
    (d : Payload) (now : Nat) (j : List LoggedData)
    (h : handleEvent env e = .ok (some (k, d))) :
    d.map Prod.fst = specDataFields k ∧
    dispatchOne env now e j = j ++ [logged now k (some d)] ∧
    (logged now k (some d)).data = some d := by
  obtain ⟨c, _, _, hfields, _, hne, _⟩ := handleEvent_ok env e k d h
  refine ⟨hfields, ?_, ?_⟩
  · unfold dispatchOne
    rw [h]
    rfl
  · simp [logged, if_neg hne]

theorem record_schema_fidelity_witness :
    ([("channel_id", JsonVal.int 7), ("channel_name", JsonVal.str "general"),
      ("emoji", JsonVal.str "wave"), ("member_name", JsonVal.str "alice"),
      ("member_id", JsonVal.int 42),
      ("current_member_count", JsonVal.int 9)].map Prod.fst
        = specDataFields .reaction_add) ∧
    dispatchOne ⟨some ⟨some 9⟩, fun i => if i = 7 then some ⟨7, "general"⟩ else none⟩ 11
        (.raw_reaction_add ⟨7, "wave", "alice", 42⟩) []
      = [logged 11 .reaction_add (some
          [("channel_id", JsonVal.int 7), ("channel_name", JsonVal.str "general"),
           ("emoji", JsonVal.str "wave"), ("member_name", JsonVal.str "alice"),
           ("member_id", JsonVal.int 42),
           ("current_member_count", JsonVal.int 9)])] := by
  have h := record_schema_fidelity
      ⟨some ⟨some 9⟩, fun i => if i = 7 then some ⟨7, "general"⟩ else none⟩
      (.raw_reaction_add ⟨7, "wave", "alice", 42⟩) .reaction_add
      [("channel_id", JsonVal.int 7), ("channel_name", JsonVal.str "general"),
       ("emoji", JsonVal.str "wave"), ("member_name", JsonVal.str "alice"),
       ("member_id", JsonVal.int 42), ("current_member_count", JsonVal.int 9)]
      11 [] rfl
  exact ⟨h.1, h.2.1⟩

/-- C7 counterexample: a message event from a non-excluded author whose
member-count lookup fails produces no record at all, so the claim that
every non-excluded message event emits a record is false as stated. -/
theorem message_emission_counterexample :
    ((⟨1, "bob", 7, "general", 0⟩ : Message).author_id ≠ SAPPHIRE_ID) ∧
    on_message ⟨some ⟨none⟩, fun _ => none⟩ ⟨1, "bob", 7, "general", 0⟩
      = .error (.runtimeError "member count is not available!") ∧
    dispatchOne ⟨some ⟨none⟩, fun _ => none⟩ 5
      (.message ⟨1, "bob", 7, "general", 0⟩) [] = [] := by
  exact ⟨by decide, rfl, rfl⟩

/-- C7 as amended: a message whose author id equals the excluded id is
skipped before any lookup (zero journal lines, for every gateway state),
and every other message event whose member-count lookup succeeds emits
exactly one record with the message payload. -/
theorem message_exclusion_amended :
    (∀ (env : GatewayEnv) (m : Message) (now : Nat) (j : List LoggedData),
        m.author_id = SAPPHIRE_ID →
          on_message env m = .ok none ∧ dispatchOne env now (.message m) j = j) ∧
    (∀ (env : GatewayEnv) (m : Message) (c : Nat), m.author_id ≠ SAPPHIRE_ID →
        getCurrentMemberCount env = .ok c →
          handleEvent env (.message m)
            = .ok (some (Events.message,
                [("author_id", .int m.author_id), ("author_name", .str m.author_name),
                 ("channel_id", .int m.channel_id), ("channel_name", .str m.channel_name),
                 ("current_member_count", .int c)])) ∧
          ∀ now j, dispatchOne env now (.message m) j
            = j ++ [logged now Events.message (some
                [("author_id", .int m.author_id), ("author_name", .str m.author_name),
                 ("channel_id", .int m.channel_id), ("channel_name", .str m.channel_name),
                 ("current_member_count", .int c)])]) := by
  constructor
  · intro env m now j hm
    have h1 : on_message env m = .ok none := by
      unfold on_message
      rw [if_pos hm]
    refine ⟨h1, ?_⟩
    unfold dispatchOne
    have h2 : handleEvent env (.message m) = .ok none := h1
    rw [h2]
  · intro env m c hm hc
    have h1 : handleEvent env (.message m)
        = .ok (some (Events.message,
            [("author_id", .int m.author_id), ("author_name", .str m.author_name),
             ("channel_id", .int m.channel_id), ("channel_name", .str m.channel_name),
             ("current_member_count", .int c)])) := by
      show on_message env m = _
      unfold on_message
      rw [if_neg hm, hc]
    refine ⟨h1, ?_⟩
    intro now j
    unfold dispatchOne
    rw [h1]
    rfl

theorem message_exclusion_amended_witness :
    (on_message ⟨some ⟨none⟩, fun _ => none⟩ ⟨SAPPHIRE_ID, "sapphire", 7, "general", 0⟩
        = .ok none ∧
      dispatchOne ⟨some ⟨none⟩, fun _ => none⟩ 5
        (.message ⟨SAPPHIRE_ID, "sapphire", 7, "general", 0⟩) [] = []) ∧
    dispatchOne ⟨some ⟨some 100⟩, fun _ => none⟩ 6
        (.message ⟨42, "alice", 7, "general", 0⟩) []
      = [logged 6 Events.message (some
          [("author_id", .int 42), ("author_name", .str "alice"),
           ("channel_id", .int 7), ("channel_name", .str "general"),
           ("current_member_count", .int 100)])] := by
  constructor
  · exact message_exclusion_amended.1 ⟨some ⟨none⟩, fun _ => none⟩
      ⟨SAPPHIRE_ID, "sapphire", 7, "general", 0⟩ 5 [] rfl
  · exact (message_exclusion_amended.2 ⟨some ⟨some 100⟩, fun _ => none⟩
      ⟨42, "alice", 7, "general", 0⟩ 100 (by decide) rfl).2 6 []

/-- C8: when the member-count lookup fails, the failure propagates out of
the normalization call unchanged (no default is substituted): every
handler that reaches the lookup returns the same error, and the dispatch
of such an event writes no journal line at all. -/
theorem member_count_failure_drops_event (env : GatewayEnv) (err : PyError)
    (h : getCurrentMemberCount env = .error err) :
    (∀ m : Member, on_member_join env m = .error err) ∧
    (∀ p : RawMemberRemoveEvent, on_raw_member_remove env p = .error err) ∧
    (∀ i : Invite, on_invite_create env i = .error err) ∧
    (∀ m : Message, m.author_id ≠ SAPPHIRE_ID → on_message env m = .error err) ∧
    (∀ (p : RawReactionActionEvent) ch, env.get_channel p.channel_id = some ch →
        on_raw_reaction_add env p = .error err) ∧
    (∀ (e : PlatformEvent) (now : Nat) (j : List LoggedData),
        handleEvent env e = .error err → dispatchOne env now e j = j) := by
  refine ⟨?_, ?_, ?_, ?_, ?_, ?_⟩
  · intro m
    unfold on_member_join
    rw [h]
  · intro p
    unfold on_raw_member_remove
    rw [h]
  · intro i
    unfold on_invite_create
    rw [h]
  · intro m hm
    unfold on_message
    rw [if_neg hm, h]
  · intro p ch hch
    unfold on_raw_reaction_add
    rw [hch, h]
  · intro e now j he
    unfold dispatchOne
    rw [he]

theorem member_count_failure_drops_event_witness :
    getCurrentMemberCount ⟨some ⟨none⟩, fun _ => none⟩
      = .error (.runtimeError "member count is not available!") ∧
    on_member_join ⟨some ⟨none⟩, fun _ => none⟩ ⟨5⟩
      = .error (.runtimeError "member count is not available!") ∧
    dispatchOne ⟨some ⟨none⟩, fun _ => none⟩ 9 (.member_join ⟨5⟩) [] = [] := by
  have h := member_count_failure_drops_event ⟨some ⟨none⟩, fun _ => none⟩
      (.runtimeError "member count is not available!") rfl
  exact ⟨rfl, h.1 ⟨5⟩, h.2.2.2.2.2 (.member_join ⟨5⟩) 9 [] (h.1 ⟨5⟩)⟩

/-- C9: every record the event stream persists carries a kind drawn from
the five emitted members of the closed enumeration (the kind is a field
of the record, never absent), and when the wall-clock readings of the
delivered stream are non-decreasing (successive datetime.now calls; the
clock itself is environment, not code), the persisted timestamps are
non-decreasing in insertion order. -/
theorem journal_kind_and_timestamp_invariant
    (evs : List (GatewayEnv × PlatformEvent × Nat))
    (h : (evs.map (fun t => t.2.2)).Pairwise (· ≤ ·)) :
    (∀ r ∈ runEvents evs [], r.event ∈ emittedKinds) ∧
    ((runEvents evs []).map (fun r => r.timestamp)).Pairwise (· ≤ ·) := by
  constructor
  · intro r hr
    rw [runEvents_eq] at hr
    simp only [List.nil_append] at hr
    rcases List.mem_flatten.mp hr with ⟨block, hb, hrb⟩
    rcases List.mem_map.mp hb with ⟨trip, htrip, hblock⟩
    subst hblock
    exact emitted_kind _ _ _ r hrb
  · rw [runEvents_eq]
    simp only [List.nil_append]
    exact List.Pairwise.sublist (journal_ts_sublist evs) h

theorem journal_kind_and_timestamp_invariant_witness :
    (∀ r ∈ runEvents
        [(⟨some ⟨some 3⟩, fun _ => none⟩, .member_join ⟨5⟩, 10),
         (⟨some ⟨some 4⟩, fun _ => none⟩, .invite_create ⟨"abc", 8, "carol"⟩, 20)] [],
      r.event ∈ emittedKinds) ∧
    ((runEvents
        [(⟨some ⟨some 3⟩, fun _ => none⟩, .member_join ⟨5⟩, 10),
         (⟨some ⟨some 4⟩, fun _ => none⟩, .invite_create ⟨"abc", 8, "carol"⟩, 20)] []).map
      (fun r => r.timestamp)).Pairwise (· ≤ ·) :=
  journal_kind_and_timestamp_invariant
    [(⟨some ⟨some 3⟩, fun _ => none⟩, .member_join ⟨5⟩, 10),
     (⟨some ⟨some 4⟩, fun _ => none⟩, .invite_create ⟨"abc", 8, "carol"⟩, 20)]
    (by simp)

/-- C10: the member-count lookup raises not only when the platform
reports no count but also when the reported count is exactly zero (the
truthiness test of src/app.py), a successful lookup is strictly
positive, and consequently every current_member_count value stored in a
persisted record is strictly positive. -/
theorem member_count_positive :
    (∀ (env : GatewayEnv) (g : Guild), env.get_guild = some g → g.member_count = some 0 →
        getCurrentMemberCount env = .error (.runtimeError "member count is not available!")) ∧
    (∀ (env : GatewayEnv) (c : Nat), getCurrentMemberCount env = .ok c → 0 < c) ∧
    (∀ (evs : List (GatewayEnv × PlatformEvent × Nat)) (r : LoggedData) (d : Payload)
        (v : Int), r ∈ runEvents evs [] → r.data = some d →
        ("current_member_count", JsonVal.int v) ∈ d → 0 < v) := by
  refine ⟨?_, fun env c h => getCurrentMemberCount_pos env c h, ?_⟩
  · intro env g hg hm
    simp [getCurrentMemberCount, hg, hm]
  · intro evs r d v hr hd hv
    rw [runEvents_eq] at hr
    simp only [List.nil_append] at hr
    rcases List.mem_flatten.mp hr with ⟨block, hb, hrb⟩
    rcases List.mem_map.mp hb with ⟨trip, htrip, hblock⟩
    subst hblock
    exact emitted_count_pos _ _ _ r hrb d hd v hv

theorem member_count_positive_witness :
    getCurrentMemberCount ⟨some ⟨some 0⟩, fun _ => none⟩
      = .error (.runtimeError "member count is not available!") ∧
    (0 : Nat) < 3 ∧ (0 : Int) < 3 := by
  refine ⟨member_count_positive.1 ⟨some ⟨some 0⟩, fun _ => none⟩ ⟨some 0⟩ rfl rfl,
    member_count_positive.2.1 ⟨some ⟨some 3⟩, fun _ => none⟩ 3 rfl, ?_⟩
  exact member_count_positive.2.2
    [(⟨some ⟨some 3⟩, fun _ => none⟩, .member_join ⟨5⟩, 10)]
    (logged 10 .member_join (some
      [("member_id", JsonVal.int 5), ("current_member_count", JsonVal.int 3)]))
    [("member_id", JsonVal.int 5), ("current_member_count", JsonVal.int 3)] 3
    (by decide) rfl (by decide)

theorem journal_append_only_witness :
    appendAll [(4, Events.member_join, some [("member_id", JsonVal.int 5)]),
               (6, Events.invite_create, none)] []
      = [logged 4 Events.member_join (some [("member_id", JsonVal.int 5)]),
         logged 6 Events.invite_create none] ∧
    (appendAll [(4, Events.member_join, some [("member_id", JsonVal.int 5)]),
                (6, Events.invite_create, none)] []).length = 2 := by
  have h := journal_append_only
    [(4, Events.member_join, some [("member_id", JsonVal.int 5)]),
     (6, Events.invite_create, none)] []
  exact ⟨h.1, h.2.1⟩

theorem log_single_line_shape_witness :
    serializeLine (logged 1500000 Events.message none)
      = "\x7b\"timestamp\": " ++ renderTs 1500000 ++ ", \"event\": "
          ++ renderJsonString Events.message.value ++ "\x7d" ∧
    (logged 1500000 Events.message none).data = none :=
  ⟨(log_single_line_shape 1500000 .message none []).2.2.2.1,
   (log_single_line_shape 1500000 .message none []).2.2.1⟩

theorem init_directory_rejection_witness :
    JsonlDataWriter.init .dir = .error "cannot log to %s: is directory" ∧
    JsonlDataWriter.init .absent = .ok (.file []) :=
  ⟨init_directory_rejection.1, init_directory_rejection.2.1⟩

theorem idempotent_construction_witness :
    JsonlDataWriter.init
        (.file [logged 1 Events.member_join (some [("member_id", JsonVal.int 5),
          ("current_member_count", JsonVal.int 3)])])
      = .ok (.file [logged 1 Events.member_join (some [("member_id", JsonVal.int 5),
          ("current_member_count", JsonVal.int 3)])]) ∧
    (JsonlDataWriter.log 2 Events.invite_create none
        [logged 1 Events.member_join (some [("member_id", JsonVal.int 5),
          ("current_member_count", JsonVal.int 3)])]).length = 2 ∧
    (JsonlDataWriter.log 2 Events.invite_create none
        [logged 1 Events.member_join (some [("member_id", JsonVal.int 5),
          ("current_member_count", JsonVal.int 3)])]).take 1
      = [logged 1 Events.member_join (some [("member_id", JsonVal.int 5),
          ("current_member_count", JsonVal.int 3)])] := by
  have h := idempotent_construction
    [logged 1 Events.member_join (some [("member_id", JsonVal.int 5),
      ("current_member_count", JsonVal.int 3)])] 2 Events.invite_create none
  exact ⟨h.1, h.2.1, h.2.2.1⟩
